import Mathlib

/-!
Verification development for the kousen command-dispatch layer
(prefix matching, command-tree descent, hook cascade, getter resolvers).

Python strings are embedded as `List Char`; every helper mirrors the exact
Python primitive used by the source (`str.lstrip`, `str.startswith`,
`str.lower`, `str.split` with one space and maxsplit 1, `list.sort` with
key len and reverse, a non-breaking for-scan).
-/

/-- Convert a Lean string literal to the character-list embedding of a Python string. -/
def pystr (s : String) : List Char := s.data

/-- Python `str.lstrip()`: drop leading whitespace characters. -/
def lstrip : List Char → List Char
  | [] => []
  | c :: cs => if c.isWhitespace then lstrip cs else c :: cs

/-- Python `content.startswith(p)`: `p` is a leading segment of `content`. -/
def startsWithChars : List Char → List Char → Bool
  | [], _ => true
  | _ :: _, [] => false
  | p :: ps, c :: cs => p == c && startsWithChars ps cs

/-- Python `str.lower()` (character-wise lowering). -/
def lowerChars (s : List Char) : List Char := s.map Char.toLower

/-- Python `content.split(" ", maxsplit=1)[0]`: the segment before the first space. -/
def firstToken : List Char → List Char
  | [] => []
  | c :: cs => if c == ' ' then [] else c :: firstToken cs

/-- Stable insertion of one string into a list ordered by descending length:
the new element goes after every element of length at least its own. -/
def insertByLenDesc (x : List Char) : List (List Char) → List (List Char)
  | [] => [x]
  | y :: ys => if y.length < x.length then x :: y :: ys else y :: insertByLenDesc x ys

/-- Python `prefixes.sort(key=len, reverse=True)`: stable sort by descending length. -/
def sortByLenDesc (l : List (List Char)) : List (List Char) :=
  l.foldl (fun acc x => insertByLenDesc x acc) []

/-- The matching scan of `Bot.on_message_create` (handler.py lines 458 to 473):
the accumulator starts as the empty string and every candidate that matches
overwrites it, because the Python for-loop has no break. -/
def scanPfxs (caseInsensitive : Bool) (sorted : List (List Char)) (content : List Char) :
    List Char :=
  if caseInsensitive then
    sorted.foldl
      (fun acc p => if startsWithChars (lowerChars p) (lowerChars content) then p else acc) []
  else
    sorted.foldl (fun acc p => if startsWithChars p content then p else acc) []

/-- The prefix actually matched by the handler for a raw message content:
candidates are sorted by descending length and then scanned. -/
def matchedPfx (caseInsensitive : Bool) (pfxs : List (List Char)) (raw : List Char) :
    List Char :=
  scanPfxs caseInsensitive (sortByLenDesc pfxs) (lstrip raw)

/-- A command node as dispatched by the handler: `leaf` stands for `Command`
or `SubCommand`, `group` for `CommandGroup` or `SubCommandGroup` with its
`_names_to_subcommands` mapping (insertion-ordered association list). -/
inductive CmdNode where
  | leaf (name : List Char)
  | group (name : List Char) (children : List (List Char × CmdNode))

/-- The `_name` attribute of a node. -/
def nodeName : CmdNode → List Char
  | .leaf n => n
  | .group n _ => n

/-- Python `dict.get(key, None)` over an insertion-ordered mapping of
names to nodes (`CommandGroup.get_subcommand`). -/
def lookupChild : List (List Char × CmdNode) → List Char → Option CmdNode
  | [], _ => none
  | (n, c) :: rest, k => if n == k then some c else lookupChild rest k

/-- The tree-descent while loop of `Bot.on_message_create` (handler.py lines
482 to 486).  The loop body recomputes the first token of the same `name`
variable each iteration: on a successful child lookup it reassigns `name`
and `command` and breaks, otherwise the loop repeats with unchanged state.
`fuel` bounds the number of iterations; `none` means the fuel ran out with
the loop still spinning. -/
def descendLoop (fuel : Nat) (name : List Char) (command : CmdNode) :
    Option (List Char × CmdNode) :=
  match command with
  | .leaf n => some (name, .leaf n)
  | .group g cs =>
    match lookupChild cs (firstToken name) with
    | some c => some (firstToken name, c)
    | none =>
      match fuel with
      | 0 => none
      | f + 1 => descendLoop f name (.group g cs)

/-- Modelled from the spec: `Component.get_command` has an ellipsis body in
components.py, so a component is embedded as its flat name-to-command
mapping and lookup resolves the top-level name in it, per the spec sentence
"For each registered component ..., look up the name". -/
def ComponentM : Type := List (List Char × CmdNode)

/-- The for-loop over `self._names_to_components.values()` in
`Bot.on_message_create` (handler.py lines 479 to 497).  For each component
whose lookup succeeds, the descent runs and the resulting command is
invoked (recorded as the pair of the context invoking name and the command
name); the loop then continues with the possibly reassigned `name`.
`none` propagates a descent that ran out of fuel. -/
def processComponents (fuel : Nat) :
    List Char → List ComponentM → Option (List Char × List (List Char × List Char))
  | name, [] => some (name, [])
  | name, comp :: rest =>
    match lookupChild comp name with
    | none => processComponents fuel name rest
    | some command =>
      match descendLoop fuel name command with
      | none => none
      | some (name2, cmd2) =>
        match processComponents fuel name2 rest with
        | none => none
        | some (nameF, invs) => some (nameF, (name2, nodeName cmd2) :: invs)

/-- Observable outcome of one `Bot.on_message_create` call. -/
inductive MsgOutcome where
  /-- returned at the `_slash_commands_only` gate -/
  | slashOnly
  /-- returned because `event.content` is `None` -/
  | noContent
  /-- returned because the combined prefix list is empty -/
  | noPfxs
  /-- returned because nothing remains after stripping the matched prefix -/
  | notCommand
  /-- the descent while loop never exited within the available fuel -/
  | diverged
  /-- the component loop completed: `invoked` lists every command invocation
  (invoking name paired with command name) in order, and `notFoundName` is
  the name carried by the CommandNotFound error payload dispatched through
  the bot-level hooks under the error hook type (the for-else clause) -/
  | dispatched (invoked : List (List Char × List Char)) (notFoundName : Option (List Char))
deriving DecidableEq

/-- The tail of the handler after the component loop: the for-else clause of
handler.py lines 499 to 501 runs whenever the loop completes (there is no
break at the for level), so a CommandNotFound payload is always dispatched
with the final value of `name`. -/
def finishDispatch : Option (List Char × List (List Char × List Char)) → MsgOutcome
  | none => .diverged
  | some (n, invs) => .dispatched invs (some n)

/-- The message-handler state the dispatch path reads: the slash-only flag,
the resolved prefix list (the awaited `_prefix_getter` result), the mention
prefixes, the resolved case-insensitive-prefixes flag, and the registered
components in registration order. -/
structure BotM where
  slashCommandsOnly : Bool
  resolvedPfxs : List (List Char)
  mentionPfxs : List (List Char)
  caseInsensitivePfxs : Bool
  components : List ComponentM

/-- `Bot.on_message_create` (handler.py lines 451 to 502) over the embedded
state: slash-only gate, content gate, prefix resolution and extension by
mention prefixes, emptiness gate, descending-length sort, matching scan,
prefix stripping, first-token extraction, component loop, for-else
CommandNotFound dispatch. -/
def onMessage (fuel : Nat) (bot : BotM) (content? : Option (List Char)) : MsgOutcome :=
  if bot.slashCommandsOnly then .slashOnly
  else
    match content? with
    | none => .noContent
    | some raw =>
      let pfxs := bot.resolvedPfxs ++ bot.mentionPfxs
      if pfxs.isEmpty then .noPfxs
      else
        let sorted := sortByLenDesc pfxs
        let content := lstrip raw
        let pfx := scanPfxs bot.caseInsensitivePfxs sorted content
        let content2 := lstrip (content.drop pfx.length)
        if content2.isEmpty then .notCommand
        else
          finishDispatch (processComponents fuel (firstToken content2) bot.components)

/-- The bot of the CommandNotFound scenario: one component holding the single
top-level leaf command named ping, static message-command prefix the
exclamation mark, defaults everywhere else. -/
def demoBotPing : BotM :=
  ⟨false, [pystr "!"], [], false, [[(pystr "ping", .leaf (pystr "ping"))]]⟩

/-- A top-level command group named user with one subcommand leaf named info. -/
def demoUserGroup : CmdNode :=
  .group (pystr "user") [(pystr "info", .leaf (pystr "info"))]

/-- The bot of the group-descent scenario: one component holding the user
group, static message-command prefix the exclamation mark. -/
def demoBotUser : BotM := ⟨false, [pystr "!"], [], false, [[(pystr "user", demoUserGroup)]]⟩

/-- A bot configured as slash-commands-only. -/
def demoBotSlashOnly : BotM := ⟨true, [pystr "!"], [], false, [[(pystr "ping", .leaf (pystr "ping"))]]⟩

/-- Hook types of the `HookTypes` enum in hooks.py. -/
inductive HookKind where
  | hkError
  | hkCheckError
  | hkPreInvoke
  | hkPostInvoke
  | hkCommandSuccess
  | hkComponentAdded
  | hkComponentRemoved
deriving DecidableEq

/-- The `_component_only_hooks` tuple of hooks.py line 155. -/
def componentOnlyKind : HookKind → Bool
  | .hkComponentAdded => true
  | .hkComponentRemoved => true
  | _ => false

/-- Owner kind of a hook registry (the `_type` literal passed to the
registry constructor). -/
inductive OwnerKind where
  | bot
  | component
  | command
deriving DecidableEq

/-- Outcome of calling one registered hook callback. -/
inductive CallResult where
  | ok
  | raised
deriving DecidableEq

/-- A registered hook callback, abstracted to an identifier, whether calling
it raises an exception, and its declared parameter count (what
`len(inspect.signature(callback).parameters)` would report). -/
structure HookCb where
  id : Nat
  raises : Bool
  params : Nat
deriving DecidableEq

/-- Calling a hook callback: the `raises` flag decides the outcome. -/
def callHookCb (c : HookCb) : CallResult := if c.raises then .raised else .ok

/-- A hook registry: its owner kind and the `_all_hooks` dictionary
(insertion-ordered association list of hook kind to callback list). -/
structure HooksM where
  owner : OwnerKind
  table : List (HookKind × List HookCb)
deriving DecidableEq

/-- Python `self._all_hooks.get(hook_type)` over the embedded table. -/
def lookupHooks : List (HookKind × List HookCb) → HookKind → Option (List HookCb)
  | [], _ => none
  | (k2, cbs) :: rest, k => if k2 = k then some cbs else lookupHooks rest k

/-- The callback list registered for a hook kind (empty when absent). -/
def cbsFor (h : HooksM) (k : HookKind) : List HookCb :=
  match lookupHooks h.table k with
  | some cbs => cbs
  | none => []

/-- The dispatch for-loop body of `Hooks.dispatch` (hooks.py lines 290 to
297): each callback is awaited inside a try block whose except clause logs
the exception, so the iteration continues past a raising callback; the
returned list records each call and its outcome in registration order. -/
def runHookCbs : List HookCb → List (Nat × CallResult)
  | [] => []
  | c :: cs =>
    match callHookCb c with
    | .raised => (c.id, .raised) :: runHookCbs cs
    | .ok => (c.id, .ok) :: runHookCbs cs

/-- `Hooks.dispatch` (hooks.py lines 276 to 299): the walrus condition is
falsy when the lookup yields nothing or an empty list, returning false;
otherwise every callback is run and true is returned. -/
def dispatchHooks (h : HooksM) (k : HookKind) : Bool × List (Nat × CallResult) :=
  match lookupHooks h.table k with
  | some cbs => if cbs.isEmpty then (false, []) else (true, runHookCbs cbs)
  | none => (false, [])

/-- Scope tags for recording which registry a fired callback belonged to. -/
inductive HookScope where
  | cmdScope
  | compScope
  | botScope
deriving DecidableEq

/-- Tag each run record with the registry scope it fired in. -/
def tagRuns (s : HookScope) (l : List (Nat × CallResult)) :
    List (HookScope × Nat × CallResult) :=
  l.map (fun r => (s, r.1, r.2))

/-- Python truthiness of the optional registry argument followed by its
dispatch (`if command_hooks:` then `await command_hooks.dispatch(...)`). -/
def dispatchOpt (h? : Option HooksM) (k : HookKind) : Bool × List (Nat × CallResult) :=
  match h? with
  | some h => dispatchHooks h k
  | none => (false, [])

/-- The three-tier cascade `_dispatch_hooks` (hooks.py lines 195 to 204):
command registry first, component registry second, bot registry last,
stopping at the first tier whose dispatch reports true. -/
def cascadeHooks (k : HookKind) (botH : HooksM) (compH? cmdH? : Option HooksM) :
    Bool × List (HookScope × Nat × CallResult) :=
  let r1 := dispatchOpt cmdH? k
  if r1.1 then (true, tagRuns .cmdScope r1.2)
  else
    let r2 := dispatchOpt compH? k
    if r2.1 then (true, tagRuns .compScope r2.2)
    else
      let r3 := dispatchHooks botH k
      if r3.1 then (true, tagRuns .botScope r3.2)
      else (false, [])

/-- Python dict update of `add_hook_callback` lines 374 to 377: append the
callback to the existing list for the kind, or add a fresh entry at the end
of the insertion order. -/
def appendHook : List (HookKind × List HookCb) → HookKind → HookCb →
    List (HookKind × List HookCb)
  | [], k, cb => [(k, [cb])]
  | (k2, cbs) :: rest, k, cb =>
    if k2 = k then (k2, cbs ++ [cb]) :: rest else (k2, cbs) :: appendHook rest k cb

/-- True exactly for the command owner kind. -/
def ownerIsCommand : OwnerKind → Bool
  | .command => true
  | _ => false

/-- `Hooks.add_hook_callback` (hooks.py lines 330 to 380) after the enum
validity test (the embedding only represents valid enum members): refuse
component-only kinds on command-owned registries, refuse a component-only
kind unless the declared parameter count is 2, then refuse any callback
whose declared parameter count is not 1, and only then append.  Each
refusal logs an error and returns the registry unmodified. -/
def addHookCallback (reg : HooksM) (k : HookKind) (cb : HookCb) : HooksM :=
  let inComp := componentOnlyKind k
  if ownerIsCommand reg.owner && inComp then reg
  else if inComp && cb.params != 2 then reg
  else if cb.params != 1 then reg
  else ⟨reg.owner, appendHook reg.table k cb⟩

/-- Hook registries of the cascade-precedence scenario: an error hook at
every scope, with distinct callback identifiers. -/
def demoCmdHooks : HooksM := ⟨.command, [(.hkError, [⟨7, false, 1⟩])]⟩

/-- Component-scope registry of the cascade-precedence scenario. -/
def demoCompHooks : HooksM := ⟨.component, [(.hkError, [⟨8, false, 1⟩])]⟩

/-- Bot-scope registry of the cascade-precedence scenario. -/
def demoBotHooks : HooksM := ⟨.bot, [(.hkError, [⟨9, false, 1⟩])]⟩

/-- An empty bot-owned registry. -/
def demoEmptyBotHooks : HooksM := ⟨.bot, []⟩

/-- Python values a user getter callback can return (the shapes the
validation code distinguishes). -/
inductive PyVal where
  | str (s : List Char)
  | pybool (b : Bool)
  | pyint (n : Int)
deriving DecidableEq

/-- Result of validating a getter callback result: either the value the
resolver returns, or a raised TypeError. -/
inductive ValidateResult where
  | returned (v : PyVal)
  | typeErrorRaised
deriving DecidableEq

/-- The bool branch of `_getter_with_callback` (_getters.py lines 62 to 66):
the isinstance test is written against str, so a string result is returned
unchanged and every other result, a real bool included, raises the
TypeError whose message says the getter must return a bool. -/
def boolGetterValidate (r : PyVal) : ValidateResult :=
  match r with
  | .str s => .returned (.str s)
  | _ => .typeErrorRaised

/-- Positional parameter list of a Python function. -/
structure PyFuncSig where
  posParams : List String

/-- Whether a Python call with `nPos` positional arguments and the given
keyword-argument names binds against the signature; false means Python
raises a TypeError at the call (unknown keyword, too many positionals, or
a keyword naming an already positionally bound parameter). -/
def bindCall (sig : PyFuncSig) (nPos : Nat) (kwNames : List String) : Bool :=
  decide (nPos ≤ sig.posParams.length) &&
  kwNames.all (fun kw => sig.posParams.contains kw) &&
  kwNames.all (fun kw => !((sig.posParams.take nPos).contains kw))

/-- The signature of `_getter` in _getters.py line 36: an underscore
parameter and a parameter named return underscore obj. -/
def getterSig : PyFuncSig := ⟨["_", "return_obj"]⟩

/-- The keyword captured by `functools.partial` in the literal and
collection branches of `_prefix_getter_maker` (_getters.py lines 71 and
83): the keyword is return underscore object. -/
def literalResolverKwNames : List String := ["return_object"]

/-- The list value captured for a string-literal configuration
(_getters.py line 71): a singleton of the left-stripped literal. -/
def capturedPfxList (p : List Char) : List (List Char) := [lstrip p]

/-- The list value captured for a collection configuration (_getters.py
lines 74 to 83): each member left-stripped, in order. -/
def capturedPfxLists (ps : List (List Char)) : List (List Char) := ps.map lstrip

/-- Whether the resolver produced for a literal or collection configuration
binds when the handler calls it with two positional arguments (bot and
event, handler.py line 459). -/
def literalResolverCallBinds : Bool := bindCall getterSig 2 literalResolverKwNames

/-- Parent-chain shape that `SubCommand.full_name` and
`SubCommandGroup.full_name` walk: the chain alternates subcommand nodes
upward until the top-level `CommandGroup` (whose isinstance test stops the
while loop). -/
inductive PNode where
  | cmdGroup (name : List Char)
  | subNode (name : List Char) (parent : PNode)

/-- The while loop of `SubCommand.full_name` (commands.py lines 297 to 305):
names are appended while the current node is not a CommandGroup, so the
walk stops at the top-level group without collecting its name. -/
def collectedNames : PNode → List (List Char)
  | .cmdGroup _ => []
  | .subNode n p => n :: collectedNames p

/-- Python `" ".join(parts)`. -/
def joinSpaces : List (List Char) → List Char
  | [] => []
  | [s] => s
  | s :: rest => s ++ ' ' :: joinSpaces rest

/-- `full_name` as the source computes it: collect names up to but
excluding the top-level CommandGroup, reverse, join with single spaces. -/
def fullName (node : PNode) : List Char := joinSpaces (collectedNames node).reverse

/-- Modelled from the spec: the full-name chain the spec describes, walking
parent links from the node to the root and collecting names root-to-leaf
including the top-level name. -/
def specFullChain : PNode → List (List Char)
  | .cmdGroup n => [n]
  | .subNode n p => n :: specFullChain p

/-- Modelled from the spec: full name as the space-joined chain from the
top-level name down to the node name. -/
def fullNameSpec (node : PNode) : List Char := joinSpaces (specFullChain node).reverse

theorem descend_leaf (fuel : Nat) (name n : List Char) :
    descendLoop fuel name (.leaf n) = some (name, .leaf n) := by
  cases fuel <;> rfl

theorem descend_stuck (fuel : Nat) (name g : List Char) (cs : List (List Char × CmdNode))
    (h : lookupChild cs (firstToken name) = none) :
    descendLoop fuel name (.group g cs) = none := by
  induction fuel with
  | zero => simp [descendLoop, h]
  | succ f ih => simp only [descendLoop, h]; exact ih

/-- C1 in the source, the matching scan over the descending-length sorted
candidates has no break, so every matching candidate overwrites the
accumulator and the last match, the shortest matching candidate, wins:
with prefixes bang and double-bang and content double-bang ping, the
matched prefix evaluates to the single bang, not the double bang the
claim requires. -/
theorem C1_last_match_wins_not_longest :
    matchedPfx false [pystr "!", pystr "!!"] (pystr "!!ping") = pystr "!"
    ∧ matchedPfx false [pystr "!", pystr "!!"] (pystr "!!ping") ≠ pystr "!!" := by
  decide

/-- C2 the CommandNotFound dispatch lives in a for-else clause and the for
loop has no break, so the else clause runs even when a component yielded a
match: on the message bang ping against a component holding the ping
command, the handler both invokes ping and dispatches a CommandNotFound
payload carrying the name ping, contradicting the claim that no
CommandNotFound payload is dispatched when a command matched. -/
theorem C2_match_still_dispatches_not_found (fuel : Nat) :
    onMessage fuel demoBotPing (some (pystr "!ping"))
      = .dispatched [(pystr "ping", pystr "ping")] (some (pystr "ping")) := by
  have base : onMessage fuel demoBotPing (some (pystr "!ping"))
      = finishDispatch (processComponents fuel (pystr "ping") demoBotPing.components) := rfl
  rw [base]
  simp [demoBotPing, processComponents, lookupChild, descend_leaf, nodeName, finishDispatch]

/-- C3 the tree-descent while loop recomputes the first token of the same
unchanged name and only exits through the break on a successful child
lookup, so when the token does not name a child of the group the loop
state never changes: on the message bang user against the user group the
handler spins forever (the embedding returns the diverged outcome for
every fuel bound) instead of invoking the group itself. -/
theorem C3_group_descent_never_terminates (fuel : Nat) :
    onMessage fuel demoBotUser (some (pystr "!user")) = MsgOutcome.diverged := by
  have base : onMessage fuel demoBotUser (some (pystr "!user"))
      = finishDispatch (processComponents fuel (pystr "user") demoBotUser.components) := rfl
  rw [base]
  have h := descend_stuck fuel (pystr "user") (pystr "user")
      [(pystr "info", CmdNode.leaf (pystr "info"))] rfl
  simp [demoBotUser, demoUserGroup, processComponents, lookupChild, h, finishDispatch]

/-- C4 the full-name walk exits at the top-level CommandGroup without
appending its name, so the leaf info under the group user reports the full
name info rather than the claimed user info, and a leaf two levels down
reports admin info rather than user admin info; the spec-shaped definition
including the root name gives the claimed values. -/
theorem C4_full_name_omits_root :
    fullName (.subNode (pystr "info") (.cmdGroup (pystr "user"))) = pystr "info"
    ∧ fullNameSpec (.subNode (pystr "info") (.cmdGroup (pystr "user"))) = pystr "user info"
    ∧ fullName (.subNode (pystr "info") (.subNode (pystr "admin") (.cmdGroup (pystr "user"))))
        = pystr "admin info"
    ∧ fullNameSpec (.subNode (pystr "info") (.subNode (pystr "admin") (.cmdGroup (pystr "user"))))
        = pystr "user admin info" := by
  decide

/-- C5 the three-tier cascade reports handled exactly when some tier
reports handled, and whenever the command-tier dispatch reports handled
the cascade stops there, so exactly the command-scope callbacks fire. -/
theorem C5_cascade_precedence (k : HookKind) (botH : HooksM) (compH? cmdH? : Option HooksM) :
    (cascadeHooks k botH compH? cmdH?).1
        = ((dispatchOpt cmdH? k).1 || ((dispatchOpt compH? k).1 || (dispatchHooks botH k).1))
    ∧ ((dispatchOpt cmdH? k).1 = true →
        (cascadeHooks k botH compH? cmdH?).2 = tagRuns .cmdScope (dispatchOpt cmdH? k).2) := by
  unfold cascadeHooks
  cases h1 : (dispatchOpt cmdH? k).1 <;>
    cases h2 : (dispatchOpt compH? k).1 <;>
      cases h3 : (dispatchHooks botH k).1 <;> simp [h1, h2, h3]

theorem C5_cascade_precedence_witness :
    (cascadeHooks .hkError demoBotHooks (some demoCompHooks) (some demoCmdHooks)).2
      = [(HookScope.cmdScope, 7, CallResult.ok)]
    ∧ (cascadeHooks .hkError demoBotHooks (some demoCompHooks) (some demoCmdHooks)).1 = true := by
  have h := C5_cascade_precedence .hkError demoBotHooks (some demoCompHooks) (some demoCmdHooks)
  exact ⟨(h.2 (by decide)).trans (by decide), h.1.trans (by decide)⟩

/-- C6 registry dispatch returns false exactly when no callback is
registered for the hook type, and otherwise runs every registered callback
in registration order, a raising callback not preventing the later ones,
returning true even when every callback raised. -/
theorem C6_dispatch_runs_every_callback (h : HooksM) (k : HookKind) :
    (dispatchHooks h k).1 = !(cbsFor h k).isEmpty
    ∧ (dispatchHooks h k).2 = (cbsFor h k).map (fun c => (c.id, callHookCb c)) := by
  have run_map : ∀ l : List HookCb, runHookCbs l = l.map (fun c => (c.id, callHookCb c)) := by
    intro l
    induction l with
    | nil => rfl
    | cons c cs ih => cases hc : callHookCb c <;> simp [runHookCbs, hc, ih]
  unfold dispatchHooks cbsFor
  cases lookupHooks h.table k with
  | none => simp
  | some cbs => cases cbs <;> simp [run_map]

/-- C7 the third validation check of add-hook-callback tests the declared
parameter count against 1 without excluding the component-only kinds, so a
two-parameter callback registered for component-added on a bot-owned
registry is rejected and the registry is left unmodified, while a
one-parameter callback for the error kind is appended as the claim says. -/
theorem C7_two_param_component_hook_rejected :
    addHookCallback demoEmptyBotHooks .hkComponentAdded ⟨1, false, 2⟩ = demoEmptyBotHooks
    ∧ addHookCallback demoEmptyBotHooks .hkError ⟨2, false, 1⟩
        = ⟨.bot, [(.hkError, [⟨2, false, 1⟩])]⟩ := by
  decide

/-- C8 the literal-configuration resolver is a partial application binding
the keyword return underscore object, but the captured getter function
declares the parameter return underscore obj and only two positionals, so
the handler call with two positional arguments does not bind and raises a
TypeError on every call instead of returning the captured left-stripped
list (which itself is computed as the claim describes). -/
theorem C8_literal_resolver_call_raises :
    literalResolverCallBinds = false
    ∧ capturedPfxList (pystr "  ! ") = [pystr "! "]
    ∧ capturedPfxLists [pystr " !", pystr "?"] = [pystr "!", pystr "?"] := by
  decide

/-- C9 the bool branch of the callback validation tests isinstance against
str, so a callback returning a real bool raises the TypeError and a
callback returning a string has the string returned unchanged, the exact
inverse of the claimed contract. -/
theorem C9_bool_getter_validation_inverted :
    boolGetterValidate (.pybool true) = .typeErrorRaised
    ∧ boolGetterValidate (.pybool false) = .typeErrorRaised
    ∧ boolGetterValidate (.str (pystr "abc")) = .returned (.str (pystr "abc")) := by
  decide

/-- C10 the slash-commands-only gate is the first statement of the message
handler, so when the flag is set the handler returns the gate outcome for
every event, including events with no content at all, before any prefix
resolution, lookup, invocation or hook dispatch is reached. -/
theorem C10_slash_only_gate (fuel : Nat) (bot : BotM) (content? : Option (List Char))
    (h : bot.slashCommandsOnly = true) :
    onMessage fuel bot content? = MsgOutcome.slashOnly := by
  simp [onMessage, h]

theorem C10_slash_only_gate_witness :
    onMessage 0 demoBotSlashOnly none = MsgOutcome.slashOnly :=
  C10_slash_only_gate 0 demoBotSlashOnly none rfl
